import Mathlib

/-!
Verification development for the VaultPilot credential-rotation engine
(`src/backend/accounts/src/index-v3.js`, rotation section).

The JavaScript/TypeScript rotation engine is shallowly embedded below:
DynamoDB tables become association lists, AWS Secrets Manager becomes a
`String → Payload` store, fallible external calls are driven by a boolean /
oracle environment `Env`, and each `async` function becomes a pure state
transformer `Env → Credential → St → Outcome × St`.
-/

namespace VaultPilot

/-- A secret payload: either an unparseable plaintext string or a JSON object
(represented by its field list, in insertion order, as JavaScript objects
preserve key order). `JSON.parse` succeeds exactly on the `json` form. -/
inductive Payload
  | plain (s : String)
  | json (fields : List (String × String))
deriving Repr, DecidableEq

/-- A credential inventory record (the DynamoDB credentials-table item),
following the `Credential` interface in the source. -/
structure Credential where
  id : String
  name : String
  ctype : String
  status : String
  lastRotated : String
  expiresIn : Int
  metadata : List (String × String)
deriving Repr, DecidableEq

/-- `{ success: boolean; error?: string }` as returned by every rotation
function in the source. -/
structure Outcome where
  success : Bool
  error : Option String
deriving Repr, DecidableEq

/-- An audit-log item as written by `logActivity` (id/timestamps elided;
the metadata fields relevant to the claims are kept). -/
structure AuditRec where
  action : String
  description : String
  credentialId : String
  status : String
  error : Option String
deriving Repr, DecidableEq

/-- Whole system state: the credentials table, the Secrets Manager store,
the audit-log table, and an event trace recording externally visible
side-effecting calls (used for ordering properties). -/
structure St where
  creds : List Credential
  secrets : List (String × Payload)
  audit : List AuditRec
  events : List String
deriving Repr, DecidableEq

/-- Oracle environment for one rotation attempt: timestamps, randomness and
the success/failure of each external call (DynamoDB writes, Secrets Manager
calls, IAM calls).  Verification reads are an oracle `Nat → Option Payload`
because the backing store is eventually consistent: the n-th read-back may
fail (`none`) or return an arbitrary payload. -/
structure Env where
  now : String
  rand : Nat → Nat
  randBytes : Nat → Nat
  newAccessKeyId : String
  newSecretAccessKey : String
  getSecretOk : Bool
  updateSecretOk : Bool
  verifyReads : Nat → Option Payload
  storageOk : Bool
  setRotatingOk : Bool
  setActiveOk : Bool
  commitOk : Bool
  iamCreateOk : Bool
  iamDeleteOk : Bool

/-- Association-list lookup (JavaScript object property read). -/
def lookupAssoc {α : Type} : List (String × α) → String → Option α
  | [], _ => none
  | (k, v) :: rest, key => if k = key then some v else lookupAssoc rest key

/-- Association-list update (JavaScript `obj[k] = v`): overwrite the key if
present, otherwise append it. -/
def setAssoc {α : Type} (l : List (String × α)) (k : String) (v : α) : List (String × α) :=
  if l.any (fun p => decide (p.1 = k)) then l.map (fun p => if p.1 = k then (k, v) else p)
  else l ++ [(k, v)]

/-- Whether a JSON object has a key (`key in keys` / `field !== undefined`). -/
def hasKey (l : List (String × String)) (k : String) : Bool :=
  l.any (fun p => decide (p.1 = k))

/-- JavaScript object spread `{ ...base, ...upd }`: apply every update in
order on top of the base object. -/
def mergeFields (base upd : List (String × String)) : List (String × String) :=
  upd.foldl (fun acc kv => setAssoc acc kv.1 kv.2) base

/-- Update the credentials-table row with the given id (DynamoDB
`update` keyed by `id`; rows with other ids are untouched). -/
def updateCred (creds : List Credential) (cid : String) (f : Credential → Credential) :
    List Credential :=
  creds.map (fun c => if c.id = cid then f c else c)

/-- JavaScript `String.prototype.toLowerCase`, modelled on the character
list (ASCII case mapping; the tokens compared in the source are ASCII). -/
def lowerChar (c : Char) : Char :=
  if 65 <= c.toNat ∧ c.toNat <= 90 then Char.ofNat (c.toNat + 32) else c

def lowerString (s : String) : String :=
  String.mk (s.toList.map lowerChar)

/-- Substring test (JavaScript `String.prototype.includes`). -/
def strContains (s pat : String) : Bool :=
  let sl := s.toList
  let pl := pat.toList
  (List.range (sl.length + 1)).any (fun i => decide ((sl.drop i).take pl.length = pl))

/-- `generateSecurePassword` from the source: 32 characters drawn from the
fixed mixed alphanumeric+symbol charset; `Math.floor(Math.random()*len)` is
modelled by the oracle `rand i % len`. -/
def passwordCharset : List Char :=
  "abcdefghijklmnopqrstuvwxyzABCDEFGHIJKLMNOPQRSTUVWXYZ0123456789!@#$%^&*".toList

def generateSecurePassword (rand : Nat → Nat) : String :=
  String.mk ((List.range 32).map (fun i => passwordCharset.getD (rand i % passwordCharset.length) 'a'))

/-- `crypto.randomBytes(32).toString("hex")`: 32 oracle bytes, hex encoded. -/
def hexDigitChars : List Char := "0123456789abcdef".toList

def byteToHex (b : Nat) : String :=
  String.mk [hexDigitChars.getD ((b % 256) / 16) '0', hexDigitChars.getD (b % 16) '0']

def generateSecureToken (randBytes : Nat → Nat) : String :=
  String.join (((List.range 32).map randBytes).map byteToHex)

/-- `credential.metadata?.arn || credential.name` (empty string is falsy). -/
def getSecretId (cred : Credential) : String :=
  match lookupAssoc cred.metadata "arn" with
  | some a => if a = "" then cred.name else a
  | none => cred.name

/-- Name contains `database`, `rds` or `db` (lowercased), as in
`rotateSecretsManagerCredential`. -/
def hasDbToken (name : String) : Bool :=
  strContains (lowerString name) "database" || strContains (lowerString name) "rds" ||
    strContains (lowerString name) "db"

/-- Name contains `smtp`, `email` or `mail` (lowercased), as in
`rotateSecretsManagerCredential`. -/
def hasMailToken (name : String) : Bool :=
  strContains (lowerString name) "smtp" || strContains (lowerString name) "email" ||
    strContains (lowerString name) "mail"

/-- The classification performed inside `rotateSecretsManagerCredential`:
name tokens first (database bucket, then mail bucket), otherwise inspect the
payload read (`none` models a failed `getSecretValue`), defaulting to the
database kind for plaintext / unreadable secrets and yielding `UNKNOWN`
(generic fallback) for JSON payloads without any recognized field. -/
def detectSecretType (name : String) (payloadRead : Option Payload) : String :=
  if hasDbToken name then "RDS_PASSWORD"
  else if hasMailToken name then "SMTP_PASSWORD"
  else
    match payloadRead with
    | none => "RDS_PASSWORD"
    | some (Payload.plain _) => "RDS_PASSWORD"
    | some (Payload.json fs) =>
      if hasKey fs "password" &&
          (hasKey fs "username" || hasKey fs "host" || hasKey fs "engine") then
        "RDS_PASSWORD"
      else if hasKey fs "smtp_password" || hasKey fs "smtp_host" then "SMTP_PASSWORD"
      else if hasKey fs "password" then "RDS_PASSWORD"
      else "UNKNOWN"

/-- Modelled from the spec (for comparison only): the classifier exactly as
the claim states it, whose email rule matches only the tokens `smtp` and
`email`. -/
def detectSecretTypeClaim (name : String) (payloadRead : Option Payload) : String :=
  if hasDbToken name then "RDS_PASSWORD"
  else if strContains (lowerString name) "smtp" || strContains (lowerString name) "email" then
    "SMTP_PASSWORD"
  else
    match payloadRead with
    | none => "RDS_PASSWORD"
    | some (Payload.plain _) => "RDS_PASSWORD"
    | some (Payload.json fs) =>
      if hasKey fs "password" &&
          (hasKey fs "username" || hasKey fs "host" || hasKey fs "engine") then
        "RDS_PASSWORD"
      else if hasKey fs "smtp_password" || hasKey fs "smtp_host" then "SMTP_PASSWORD"
      else if hasKey fs "password" then "RDS_PASSWORD"
      else "UNKNOWN"

/-- The read-with-retry loop of the verification protocol: `retries` starts
at 3; each failed read (`none`) decrements it, throwing (modelled `none`)
when it reaches 0, so at most 3 reads are attempted; `attempt` indexes the
oracle. -/
def readWithRetry (reads : Nat → Option Payload) : Nat → Nat → Option Payload
  | _, 0 => none
  | attempt, Nat.succ r =>
    match reads attempt with
    | some p => some p
    | none => if r = 0 then none else readWithRetry reads (attempt + 1) r

/-- The comparison step of verification: whole-payload string equality for a
plaintext write, equality of exactly the targeted field for a structured
write (a re-read that fails to parse as JSON, or lacks the field, fails). -/
def comparePayload (p : Payload) (wasPlaintext : Bool) (field : String)
    (newPassword : String) : Bool :=
  if wasPlaintext then
    match p with
    | Payload.plain s => decide (s = newPassword)
    | Payload.json _ => false
  else
    match p with
    | Payload.plain _ => false
    | Payload.json fs => decide (lookupAssoc fs field = some newPassword)

/-- Verification after a secret write in `rotateDatabaseCredential` /
`rotateSMTPCredential`: one fixed wait, then a read with up to 3 total
attempts, then the comparison rule; `false` becomes the strategy's
verification failure. -/
def verifyWritten (reads : Nat → Option Payload) (wasPlaintext : Bool)
    (field : String) (newPassword : String) : Bool :=
  match readWithRetry reads 0 3 with
  | none => false
  | some p => comparePayload p wasPlaintext field newPassword

/-- Verification in `rotateGenericSecretsManagerCredential`: a single
read-back with no retry loop. -/
def verifyOnce (reads : Nat → Option Payload) (wasPlaintext : Bool)
    (field : String) (newPassword : String) : Bool :=
  match reads 0 with
  | none => false
  | some p => comparePayload p wasPlaintext field newPassword

/-- A failed `{ success:false, error }` outcome. -/
def failOut (e : String) : Outcome := ⟨false, some e⟩

def isPlainPayload : Payload → Bool
  | Payload.plain _ => true
  | Payload.json _ => false

/-- The payload written by the database strategy: wholesale replacement for
plaintext, otherwise `secretData.password = newPassword`. -/
def dbNewPayload (cur : Payload) (newPassword : String) : Payload :=
  match cur with
  | Payload.plain _ => Payload.plain newPassword
  | Payload.json fs => Payload.json (setAssoc fs "password" newPassword)

/-- The field the SMTP strategy targets in a JSON payload: `smtp_password`
if present, else `password` if present, else a fresh `smtp_password`
(`passwordFieldName` in the source; initialized to `password`, which is
what the plaintext branch leaves in place). -/
def smtpTargetField : Payload → String
  | Payload.plain _ => "password"
  | Payload.json fs =>
    if hasKey fs "smtp_password" then "smtp_password"
    else if hasKey fs "password" then "password"
    else "smtp_password"

/-- The payload written by the SMTP strategy. -/
def smtpNewPayload (cur : Payload) (newPassword : String) : Payload :=
  match cur with
  | Payload.plain _ => Payload.plain newPassword
  | Payload.json fs => Payload.json (setAssoc fs (smtpTargetField (Payload.json fs)) newPassword)

/-- `updateCredentialInStorage`: a DynamoDB update that REPLACES the row's
`metadata` by `{ ...credential.metadata, ...newValues }` (spread of the
passed-in credential's metadata, not of the stored row's).  Throws when the
write fails (`storageOk = false`). -/
def updateCredentialInStorage (env : Env) (cred : Credential)
    (newValues : List (String × String)) (st : St) : Except String St :=
  if env.storageOk then
    Except.ok { st with
      creds := updateCred st.creds cred.id
        (fun c => { c with metadata := mergeFields cred.metadata newValues }),
      events := st.events ++ ["update_credential_in_storage"] }
  else Except.error "inventory write failed"

/-- `rotateDatabaseCredential`: generate a 32-char password, read the
current payload, write it back (wholesale or `password`-field update),
verify with retry, then persist bookkeeping via
`updateCredentialInStorage`. -/
def rotateDatabaseCredential (env : Env) (cred : Credential) (st : St) : Outcome × St :=
  let newPassword := generateSecurePassword env.rand
  let secretId := getSecretId cred
  if secretId = "" then (failOut "Secret ID not found in credential", st)
  else if !env.getSecretOk then (failOut "Failed to get secret", st)
  else
    let currentSecret := (lookupAssoc st.secrets secretId).getD (Payload.plain "")
    if !env.updateSecretOk then (failOut "Failed to update secret", st)
    else
      let st1 := { st with secrets := setAssoc st.secrets secretId (dbNewPayload currentSecret newPassword) }
      if !(verifyWritten env.verifyReads (isPlainPayload currentSecret) "password" newPassword) then
        (failOut "Secret update verification failed", st1)
      else
        match updateCredentialInStorage env cred
            [("password", newPassword), ("lastRotated", env.now)] st1 with
        | Except.error e => (failOut e, st1)
        | Except.ok st2 => (⟨true, none⟩, st2)

/-- `rotateSMTPCredential`: same shape as the database strategy but the
structured update targets `smtp_password` preferentially, and verification
compares the targeted field. -/
def rotateSMTPCredential (env : Env) (cred : Credential) (st : St) : Outcome × St :=
  let newPassword := generateSecurePassword env.rand
  let secretId := getSecretId cred
  if secretId = "" then (failOut "Secret ID not found in credential", st)
  else if !env.getSecretOk then (failOut "Failed to get secret", st)
  else
    let currentSecret := (lookupAssoc st.secrets secretId).getD (Payload.plain "")
    if !env.updateSecretOk then (failOut "Failed to update secret", st)
    else
      let st1 := { st with secrets := setAssoc st.secrets secretId (smtpNewPayload currentSecret newPassword) }
      if !(verifyWritten env.verifyReads (isPlainPayload currentSecret)
            (smtpTargetField currentSecret) newPassword) then
        (failOut "Secret update verification failed", st1)
      else
        match updateCredentialInStorage env cred
            [("password", newPassword), ("lastRotated", env.now)] st1 with
        | Except.error e => (failOut e, st1)
        | Except.ok st2 => (⟨true, none⟩, st2)

/-- `rotateGenericSecretsManagerCredential`: like the database strategy but
with a single-read verification and no service restart. -/
def rotateGenericSecretsManagerCredential (env : Env) (cred : Credential) (st : St) :
    Outcome × St :=
  let newValue := generateSecurePassword env.rand
  let secretId := getSecretId cred
  if secretId = "" then (failOut "Secret ID not found in credential", st)
  else if !env.getSecretOk then (failOut "Failed to get secret", st)
  else
    let currentSecret := (lookupAssoc st.secrets secretId).getD (Payload.plain "")
    if !env.updateSecretOk then (failOut "Failed to update secret", st)
    else
      let st1 := { st with secrets := setAssoc st.secrets secretId (dbNewPayload currentSecret newValue) }
      if !(verifyOnce env.verifyReads (isPlainPayload currentSecret) "password" newValue) then
        (failOut "Secret update verification failed", st1)
      else
        match updateCredentialInStorage env cred
            [("password", newValue), ("lastRotated", env.now)] st1 with
        | Except.error e => (failOut e, st1)
        | Except.ok st2 => (⟨true, none⟩, st2)

/-- `rotateSecretsManagerCredential`: classify by name/payload, then route
to the database, SMTP, or generic rotation. -/
def rotateSecretsManagerCredential (env : Env) (cred : Credential) (st : St) :
    Outcome × St :=
  let secretId := getSecretId cred
  if secretId = "" then (failOut "Secret ID not found in credential", st)
  else
    let payloadRead := if env.getSecretOk then lookupAssoc st.secrets secretId else none
    let t := detectSecretType cred.name payloadRead
    if t = "RDS_PASSWORD" then rotateDatabaseCredential env cred st
    else if t = "SMTP_PASSWORD" then rotateSMTPCredential env cred st
    else rotateGenericSecretsManagerCredential env cred st

/-- `rotateIAMCredential`: create a new access key, persist it (id, secret
key and timestamp) through `updateCredentialInStorage`, and only then
delete the old access key.  External calls that take effect are traced. -/
def rotateIAMCredential (env : Env) (cred : Credential) (st : St) : Outcome × St :=
  if !env.iamCreateOk then (failOut "create access key failed", st)
  else
    let st1 := { st with events := st.events ++ ["iam_create_access_key"] }
    match updateCredentialInStorage env cred
        [("accessKeyId", env.newAccessKeyId),
         ("secretAccessKey", env.newSecretAccessKey),
         ("lastRotated", env.now)] st1 with
    | Except.error e => (failOut e, st1)
    | Except.ok st2 =>
      if !env.iamDeleteOk then (failOut "delete access key failed", st2)
      else (⟨true, none⟩, { st2 with events := st2.events ++ ["iam_delete_access_key"] })

/-- `rotateGitHubCredential`: generate a token, persist it into storage. -/
def rotateGitHubCredential (env : Env) (cred : Credential) (st : St) : Outcome × St :=
  let newToken := generateSecureToken env.randBytes
  match updateCredentialInStorage env cred
      [("token", newToken), ("lastRotated", env.now)] st with
  | Except.error e => (failOut e, st)
  | Except.ok st1 => (⟨true, none⟩, st1)

/-- `rotateAPITokenCredential`: generate a token, persist it into storage. -/
def rotateAPITokenCredential (env : Env) (cred : Credential) (st : St) : Outcome × St :=
  let newToken := generateSecureToken env.randBytes
  match updateCredentialInStorage env cred
      [("token", newToken), ("lastRotated", env.now)] st with
  | Except.error e => (failOut e, st)
  | Except.ok st1 => (⟨true, none⟩, st1)

/-- The `switch (credential.type)` dispatch of `rotateCredentialInternal`,
including the legacy type synonyms. -/
def dispatchRotate (env : Env) (cred : Credential) (st : St) : Outcome × St :=
  if cred.ctype = "AWS IAM" ∨ cred.ctype = "AWS_IAM_KEY" then
    rotateIAMCredential env cred st
  else if cred.ctype = "Database" ∨ cred.ctype = "RDS_PASSWORD" then
    rotateDatabaseCredential env cred st
  else if cred.ctype = "SMTP" ∨ cred.ctype = "SMTP_PASSWORD" then
    rotateSMTPCredential env cred st
  else if cred.ctype = "GitHub" ∨ cred.ctype = "GITHUB_TOKEN" then
    rotateGitHubCredential env cred st
  else if cred.ctype = "API Token" then
    rotateAPITokenCredential env cred st
  else if cred.ctype = "SECRETS_MANAGER" then
    rotateSecretsManagerCredential env cred st
  else (failOut ("Unsupported credential type: " ++ cred.ctype), st)

/-- `rotateCredentialInternal`: set status `rotating`, dispatch on the kind,
then on success commit the rotation (`updateCredentialRotation`: lastRotated
= now, expiresIn = 90, status = active) and append one `rotation` audit
record; on failure revert status to `active` and append one
`rotation_failed` audit record.  Any inventory-write error is caught by the
function's outer catch, which returns a failed outcome without logging.
First, the `updateCredentialStatus(id, "rotating")` write: -/
def rotatingState (cred : Credential) (st : St) : St :=
  { st with creds := updateCred st.creds cred.id (fun c => { c with status := "rotating" }) }

/-- The body of `rotateCredentialInternal` (see above). -/
def rotateCredentialInternal (env : Env) (cred : Credential) (st : St) : Outcome × St :=
  if !env.setRotatingOk then (failOut "inventory write failed", st)
  else
    let r := dispatchRotate env cred (rotatingState cred st)
    if r.1.success then
      if !env.commitOk then (failOut "inventory write failed", r.2)
      else
        let st3 :=
          { r.2 with creds := updateCred r.2.creds cred.id (fun c =>
              { c with lastRotated := env.now, expiresIn := 90, status := "active" }) }
        (r.1, { st3 with audit := st3.audit ++
          [⟨"rotation", "Credential rotated: " ++ cred.name, cred.id, "success", none⟩] })
    else
      if !env.setActiveOk then (failOut "inventory write failed", r.2)
      else
        let st3 :=
          { r.2 with creds := updateCred r.2.creds cred.id (fun c => { c with status := "active" }) }
        (r.1, { st3 with audit := st3.audit ++
          [⟨"rotation_failed", "Rotation failed: " ++ cred.name, cred.id, "failed", r.1.error⟩] })

/-- The due-selection filter of `getCredentialsToRotate`:
`expiresIn < 30 OR status = "expiring"` (threshold hardcoded at 30). -/
def isDue (c : Credential) : Bool :=
  decide (c.expiresIn < 30) || decide (c.status = "expiring")

/-- `getCredentialsToRotate`: DynamoDB scan with the due filter. -/
def getCredentialsToRotate (creds : List Credential) : List Credential :=
  creds.filter isDue

/-- The `rotateCredential` handler ("rotate one by id"): fetch the
credential by id and rotate it unconditionally; a missing id is a 404. -/
def rotateOne (env : Env) (credentialId : String) (st : St) : Outcome × St :=
  match st.creds.find? (fun c => decide (c.id = credentialId)) with
  | none => (failOut "Credential not found", st)
  | some cred => rotateCredentialInternal env cred st

/-- The per-credential body of the `rotation` handler's loop: rotate, then
append the loop's own `logActivity("rotation", ...)` record (status field
`success`/`failed` according to the outcome). -/
def processDue (envs : Nat → Env) : Nat → St → List Credential → St
  | _, st, [] => st
  | i, st, c :: rest =>
    let r := rotateCredentialInternal (envs i) c st
    let st2 := { r.2 with audit := r.2.audit ++
      [⟨"rotation", "Credential rotated: " ++ c.name, c.id,
        if r.1.success then "success" else "failed", r.1.error⟩] }
    processDue envs (i + 1) st2 rest

/-- The `rotation` handler ("rotate all due"): snapshot the due set, then
process each credential in order (the i-th attempt drawing its oracles from
`envs i`). -/
def rotationAll (envs : Nat → Env) (st : St) : St :=
  processDue envs 0 st (getCredentialsToRotate st.creds)

/-! ### Concrete scenarios used by witnesses and counterexamples -/

/-- The password generated when every random draw is 0 (32 copies of the
first charset character). -/
def pw0 : String := generateSecurePassword (fun _ => 0)

/-- The password generated when every random draw is 1. -/
def pw1 : String := generateSecurePassword (fun _ => 1)

/-- A due database credential like the spec's end-to-end scenario. -/
def cred0 : Credential :=
  { id := "c1", name := "prod-app", ctype := "RDS_PASSWORD", status := "active",
    lastRotated := "t0", expiresIn := 5, metadata := [("arn", "s1")] }

/-- An all-calls-succeed environment whose verification read returns the
payload the database strategy writes for `cred0`. -/
def envOK : Env :=
  { now := "t1", rand := fun _ => 0, randBytes := fun _ => 0,
    newAccessKeyId := "AKIANEW", newSecretAccessKey := "SK-NEW",
    getSecretOk := true, updateSecretOk := true,
    verifyReads := fun _ => some (Payload.json [("username", "app"), ("password", pw0)]),
    storageOk := true, setRotatingOk := true, setActiveOk := true,
    commitOk := true, iamCreateOk := true, iamDeleteOk := true }

/-- Like `envOK` but drawing different randomness (password `pw1`), for a
second rotation of the same credential. -/
def envOK2 : Env := { envOK with
  rand := (fun _ => 1),
  verifyReads := (fun _ => some (Payload.json [("username", "app"), ("password", pw1)])) }

/-- Like `envOK` but the Secrets Manager write call fails, so the strategy
fails before verification. -/
def envUpdFail : Env := { envOK with updateSecretOk := false }

/-- Like `envOK` but every verification read-back fails. -/
def envVerFail : Env := { envOK with verifyReads := (fun _ => none) }

/-- Initial store: `cred0` in the inventory and a structured payload at its
secret reference. -/
def st0 : St :=
  { creds := [cred0],
    secrets := [("s1", Payload.json [("username", "app"), ("password", "old123")])],
    audit := [], events := [] }

/-- Modelled from the spec, as amended: the claim classifier with `mail`
added to the email-token rule (rule 2), matching the source. -/
def detectSecretTypeClaimAmended (name : String) (payloadRead : Option Payload) : String :=
  if hasDbToken name then "RDS_PASSWORD"
  else if strContains (lowerString name) "smtp" || strContains (lowerString name) "email" ||
      strContains (lowerString name) "mail" then
    "SMTP_PASSWORD"
  else
    match payloadRead with
    | none => "RDS_PASSWORD"
    | some (Payload.plain _) => "RDS_PASSWORD"
    | some (Payload.json fs) =>
      if hasKey fs "password" &&
          (hasKey fs "username" || hasKey fs "host" || hasKey fs "engine") then
        "RDS_PASSWORD"
      else if hasKey fs "smtp_password" || hasKey fs "smtp_host" then "SMTP_PASSWORD"
      else if hasKey fs "password" then "RDS_PASSWORD"
      else "UNKNOWN"

/-- `cred0` with pre-attempt status `expiring` (still due). -/
def credExpiring : Credential := { cred0 with status := "expiring" }

/-- `st0` with the expiring credential instead. -/
def stExpiring : St := { st0 with creds := [credExpiring] }

/-- The inventory row after a successful full `rotateCredentialInternal`
pass on `cred0` under `envOK` (commit applied). -/
def c8res : Credential := { cred0 with
  lastRotated := "t1",
  expiresIn := 90,
  metadata := [("arn", "s1"), ("password", pw0), ("lastRotated", "t1")] }

/-- The inventory row after the database strategy alone (no commit step)
on `cred0` under `envOK`. -/
def c1res : Credential := { cred0 with
  metadata := [("arn", "s1"), ("password", pw0), ("lastRotated", "t1")] }

/-- System state after one successful rotate-one call on `c1`. -/
def stAfter1 : St := (rotateOne envOK "c1" st0).2

/-- The token generated when every random byte is 0 (64 hex zeros). -/
def tok0 : String := generateSecureToken (fun _ => 0)

/-- The inventory row after the GitHub-token strategy on `cred0` under
`envOK` (raw token merged into metadata). -/
def c1resGh : Credential := { cred0 with
  metadata := [("arn", "s1"), ("token", tok0), ("lastRotated", "t1")] }

/-- The inventory row after the IAM strategy on `cred0` under `envOK`
(raw secret access key merged into metadata). -/
def c1resIam : Credential := { cred0 with
  metadata := [("arn", "s1"), ("accessKeyId", "AKIANEW"),
    ("secretAccessKey", "SK-NEW"), ("lastRotated", "t1")] }

/-- An ambiguous-name structured payload used for the classifier claims. -/
def mailPayload : Option Payload :=
  some (Payload.json [("password", "x"), ("username", "a")])

/-! ### Helper lemmas about association lists -/

theorem lookupAssoc_append {α : Type} (l m : List (String × α)) (k : String) :
    lookupAssoc (l ++ m) k =
      match lookupAssoc l k with
      | some v => some v
      | none => lookupAssoc m k := by
  induction l with
  | nil => simp [lookupAssoc]
  | cons p rest ih =>
    rcases p with ⟨pk, pv⟩
    by_cases h : pk = k
    · simp [lookupAssoc, h]
    · simp [lookupAssoc, h, ih]

theorem lookupAssoc_none_of_not_any {α : Type} (l : List (String × α)) (k : String)
    (h : l.any (fun p => decide (p.1 = k)) = false) : lookupAssoc l k = none := by
  induction l with
  | nil => simp [lookupAssoc]
  | cons p rest ih =>
    rcases p with ⟨pk, pv⟩
    simp only [List.any_cons, Bool.or_eq_false_iff, decide_eq_false_iff_not] at h
    simp [lookupAssoc, h.1, ih (by simpa using h.2)]

theorem lookupAssoc_map_set_self {α : Type} (l : List (String × α)) (k : String) (v : α)
    (h : l.any (fun p => decide (p.1 = k)) = true) :
    lookupAssoc (l.map (fun p => if p.1 = k then (k, v) else p)) k = some v := by
  induction l with
  | nil => simp at h
  | cons p rest ih =>
    rcases p with ⟨pk, pv⟩
    simp only [List.map_cons]
    by_cases hk : pk = k
    · rw [if_pos hk]
      simp [lookupAssoc]
    · rw [if_neg hk]
      simp only [List.any_cons, Bool.or_eq_true, decide_eq_true_eq] at h
      rcases h with h1 | h1
      · exact absurd h1 hk
      · simp [lookupAssoc, hk, ih h1]

theorem lookupAssoc_map_set_ne {α : Type} (l : List (String × α)) (k k2 : String) (v : α)
    (h : k2 ≠ k) :
    lookupAssoc (l.map (fun p => if p.1 = k then (k, v) else p)) k2 = lookupAssoc l k2 := by
  induction l with
  | nil => simp [lookupAssoc]
  | cons p rest ih =>
    rcases p with ⟨pk, pv⟩
    simp only [List.map_cons]
    by_cases hk : pk = k
    · rw [if_pos hk]
      have h2 : ¬k = k2 := fun h3 => h h3.symm
      have h3 : ¬pk = k2 := hk ▸ h2
      simp [lookupAssoc, h2, h3, ih]
    · rw [if_neg hk]
      by_cases hk2 : pk = k2
      · simp [lookupAssoc, hk2]
      · simp [lookupAssoc, hk2, ih]

theorem lookupAssoc_setAssoc_self {α : Type} (l : List (String × α)) (k : String) (v : α) :
    lookupAssoc (setAssoc l k v) k = some v := by
  unfold setAssoc
  by_cases h : l.any (fun p => decide (p.1 = k)) = true
  · simp only [h, if_true]
    exact lookupAssoc_map_set_self l k v h
  · have hf : l.any (fun p => decide (p.1 = k)) = false := by
      simp only [Bool.not_eq_true] at h
      exact h
    simp only [hf, Bool.false_eq_true, if_false]
    rw [lookupAssoc_append, lookupAssoc_none_of_not_any l k hf]
    simp [lookupAssoc]

theorem lookupAssoc_setAssoc_ne {α : Type} (l : List (String × α)) (k k2 : String) (v : α)
    (h : k2 ≠ k) : lookupAssoc (setAssoc l k v) k2 = lookupAssoc l k2 := by
  unfold setAssoc
  by_cases hg : l.any (fun p => decide (p.1 = k)) = true
  · simp only [hg, if_true]
    exact lookupAssoc_map_set_ne l k k2 v h
  · have hf : l.any (fun p => decide (p.1 = k)) = false := by
      simp only [Bool.not_eq_true] at hg
      exact hg
    simp only [hf, Bool.false_eq_true, if_false]
    rw [lookupAssoc_append]
    cases hl : lookupAssoc l k2 with
    | some v2 => rfl
    | none =>
      have h2 : ¬k = k2 := fun h3 => h h3.symm
      simp [lookupAssoc, h2]

/-! ### Helper lemmas about credential-table updates and audit preservation -/

theorem mem_updateCred {l : List Credential} {cid : String} {f : Credential → Credential}
    {c : Credential} (hc : c ∈ updateCred l cid f) (hid : c.id = cid) :
    ∃ c0, c0 ∈ l ∧ c0.id = cid ∧ c = f c0 := by
  unfold updateCred at hc
  rcases List.mem_map.mp hc with ⟨c0, hc0, heq⟩
  by_cases h : c0.id = cid
  · rw [if_pos h] at heq
    exact ⟨c0, hc0, h, heq.symm⟩
  · rw [if_neg h] at heq
    subst heq
    exact absurd hid h

theorem updateCredentialInStorage_ok_audit (env : Env) (cred : Credential)
    (newVals : List (String × String)) (st st2 : St)
    (h : updateCredentialInStorage env cred newVals st = Except.ok st2) :
    st2.audit = st.audit := by
  unfold updateCredentialInStorage at h
  by_cases hs : env.storageOk = true
  · rw [if_pos hs] at h
    cases h
    rfl
  · rw [if_neg hs] at h
    cases h

theorem rotateDatabaseCredential_audit (env : Env) (cred : Credential) (st : St) :
    ((rotateDatabaseCredential env cred st).2).audit = st.audit := by
  unfold rotateDatabaseCredential updateCredentialInStorage
  by_cases hs : env.storageOk = true
  · simp only [if_pos hs]
    try dsimp only []
    repeat' split
    all_goals try rfl
  · simp only [if_neg hs]
    try dsimp only []
    repeat' split
    all_goals try rfl

theorem rotateSMTPCredential_audit (env : Env) (cred : Credential) (st : St) :
    ((rotateSMTPCredential env cred st).2).audit = st.audit := by
  unfold rotateSMTPCredential updateCredentialInStorage
  by_cases hs : env.storageOk = true
  · simp only [if_pos hs]
    try dsimp only []
    repeat' split
    all_goals try rfl
  · simp only [if_neg hs]
    try dsimp only []
    repeat' split
    all_goals try rfl

theorem rotateGenericSecretsManagerCredential_audit (env : Env) (cred : Credential) (st : St) :
    ((rotateGenericSecretsManagerCredential env cred st).2).audit = st.audit := by
  unfold rotateGenericSecretsManagerCredential updateCredentialInStorage
  by_cases hs : env.storageOk = true
  · simp only [if_pos hs]
    try dsimp only []
    repeat' split
    all_goals try rfl
  · simp only [if_neg hs]
    try dsimp only []
    repeat' split
    all_goals try rfl

theorem rotateSecretsManagerCredential_audit (env : Env) (cred : Credential) (st : St) :
    ((rotateSecretsManagerCredential env cred st).2).audit = st.audit := by
  unfold rotateSecretsManagerCredential
  dsimp only []
  split_ifs <;>
    first
      | rfl
      | exact rotateDatabaseCredential_audit env cred st
      | exact rotateSMTPCredential_audit env cred st
      | exact rotateGenericSecretsManagerCredential_audit env cred st

theorem rotateIAMCredential_audit (env : Env) (cred : Credential) (st : St) :
    ((rotateIAMCredential env cred st).2).audit = st.audit := by
  unfold rotateIAMCredential updateCredentialInStorage
  by_cases hs : env.storageOk = true
  · simp only [if_pos hs]
    try dsimp only []
    repeat' split
    all_goals try rfl
  · simp only [if_neg hs]
    try dsimp only []
    repeat' split
    all_goals try rfl

theorem rotateGitHubCredential_audit (env : Env) (cred : Credential) (st : St) :
    ((rotateGitHubCredential env cred st).2).audit = st.audit := by
  unfold rotateGitHubCredential updateCredentialInStorage
  by_cases hs : env.storageOk = true
  · simp only [if_pos hs]
    try dsimp only []
    repeat' split
    all_goals try rfl
  · simp only [if_neg hs]
    try dsimp only []
    repeat' split
    all_goals try rfl

theorem rotateAPITokenCredential_audit (env : Env) (cred : Credential) (st : St) :
    ((rotateAPITokenCredential env cred st).2).audit = st.audit := by
  unfold rotateAPITokenCredential updateCredentialInStorage
  by_cases hs : env.storageOk = true
  · simp only [if_pos hs]
    try dsimp only []
    repeat' split
    all_goals try rfl
  · simp only [if_neg hs]
    try dsimp only []
    repeat' split
    all_goals try rfl

theorem dispatchRotate_audit (env : Env) (cred : Credential) (st : St) :
    ((dispatchRotate env cred st).2).audit = st.audit := by
  unfold dispatchRotate
  split_ifs <;>
    first
      | rfl
      | exact rotateIAMCredential_audit env cred st
      | exact rotateDatabaseCredential_audit env cred st
      | exact rotateSMTPCredential_audit env cred st
      | exact rotateGitHubCredential_audit env cred st
      | exact rotateAPITokenCredential_audit env cred st
      | exact rotateSecretsManagerCredential_audit env cred st

/-! ### Success and failure characterization of the orchestrator -/

theorem db_success_char (env : Env) (cred : Credential) (st : St)
    (h : (rotateDatabaseCredential env cred st).1.success = true) :
    (rotateDatabaseCredential env cred st).1 = ⟨true, none⟩ ∧
    (rotateDatabaseCredential env cred st).2.creds =
      updateCred st.creds cred.id (fun c =>
        { c with metadata := mergeFields cred.metadata [("password", generateSecurePassword env.rand), ("lastRotated", env.now)] }) := by
  unfold rotateDatabaseCredential updateCredentialInStorage at h ⊢
  by_cases hs : env.storageOk = true
  · simp only [if_pos hs] at h ⊢
    split_ifs at h ⊢ <;> simp_all [failOut]
  · simp only [if_neg hs] at h ⊢
    split_ifs at h ⊢ <;> simp_all [failOut]

theorem smtp_success_char (env : Env) (cred : Credential) (st : St)
    (h : (rotateSMTPCredential env cred st).1.success = true) :
    (rotateSMTPCredential env cred st).1 = ⟨true, none⟩ ∧
    (rotateSMTPCredential env cred st).2.creds =
      updateCred st.creds cred.id (fun c =>
        { c with metadata := mergeFields cred.metadata [("password", generateSecurePassword env.rand), ("lastRotated", env.now)] }) := by
  unfold rotateSMTPCredential updateCredentialInStorage at h ⊢
  by_cases hs : env.storageOk = true
  · simp only [if_pos hs] at h ⊢
    split_ifs at h ⊢ <;> simp_all [failOut]
  · simp only [if_neg hs] at h ⊢
    split_ifs at h ⊢ <;> simp_all [failOut]

theorem generic_success_char (env : Env) (cred : Credential) (st : St)
    (h : (rotateGenericSecretsManagerCredential env cred st).1.success = true) :
    (rotateGenericSecretsManagerCredential env cred st).1 = ⟨true, none⟩ ∧
    (rotateGenericSecretsManagerCredential env cred st).2.creds =
      updateCred st.creds cred.id (fun c =>
        { c with metadata := mergeFields cred.metadata [("password", generateSecurePassword env.rand), ("lastRotated", env.now)] }) := by
  unfold rotateGenericSecretsManagerCredential updateCredentialInStorage at h ⊢
  by_cases hs : env.storageOk = true
  · simp only [if_pos hs] at h ⊢
    split_ifs at h ⊢ <;> simp_all [failOut]
  · simp only [if_neg hs] at h ⊢
    split_ifs at h ⊢ <;> simp_all [failOut]

theorem github_success_char (env : Env) (cred : Credential) (st : St)
    (h : (rotateGitHubCredential env cred st).1.success = true) :
    (rotateGitHubCredential env cred st).1 = ⟨true, none⟩ ∧
    (rotateGitHubCredential env cred st).2.creds =
      updateCred st.creds cred.id (fun c =>
        { c with metadata := mergeFields cred.metadata [("token", generateSecureToken env.randBytes), ("lastRotated", env.now)] }) := by
  unfold rotateGitHubCredential updateCredentialInStorage at h ⊢
  by_cases hs : env.storageOk = true
  · simp only [if_pos hs] at h ⊢
    refine ⟨?_, ?_⟩ <;> first | trivial | rfl
  · simp only [if_neg hs] at h ⊢
    simp [failOut] at h

theorem api_success_char (env : Env) (cred : Credential) (st : St)
    (h : (rotateAPITokenCredential env cred st).1.success = true) :
    (rotateAPITokenCredential env cred st).1 = ⟨true, none⟩ ∧
    (rotateAPITokenCredential env cred st).2.creds =
      updateCred st.creds cred.id (fun c =>
        { c with metadata := mergeFields cred.metadata [("token", generateSecureToken env.randBytes), ("lastRotated", env.now)] }) := by
  unfold rotateAPITokenCredential updateCredentialInStorage at h ⊢
  by_cases hs : env.storageOk = true
  · simp only [if_pos hs] at h ⊢
    refine ⟨?_, ?_⟩ <;> first | trivial | rfl
  · simp only [if_neg hs] at h ⊢
    simp [failOut] at h

theorem iam_success_char (env : Env) (cred : Credential) (st : St)
    (h : (rotateIAMCredential env cred st).1.success = true) :
    (rotateIAMCredential env cred st).1 = ⟨true, none⟩ ∧
    (rotateIAMCredential env cred st).2.creds =
      updateCred st.creds cred.id (fun c =>
        { c with metadata := mergeFields cred.metadata [("accessKeyId", env.newAccessKeyId), ("secretAccessKey", env.newSecretAccessKey), ("lastRotated", env.now)] }) := by
  unfold rotateIAMCredential updateCredentialInStorage at h ⊢
  by_cases hs : env.storageOk = true
  · simp only [if_pos hs] at h ⊢
    split_ifs at h ⊢ <;> simp_all [failOut]
  · simp only [if_neg hs] at h ⊢
    split_ifs at h ⊢ <;> simp_all [failOut]

theorem internal_success_fields (env : Env) (cred : Credential) (st : St) (c : Credential)
    (h : (rotateCredentialInternal env cred st).1.success = true)
    (hc : c ∈ (rotateCredentialInternal env cred st).2.creds)
    (hid : c.id = cred.id) :
    c.lastRotated = env.now ∧ c.expiresIn = 90 ∧ c.status = "active" := by
  unfold rotateCredentialInternal at h hc
  by_cases h1 : env.setRotatingOk = true
  · simp only [h1, Bool.not_true, Bool.false_eq_true, if_false] at h hc
    generalize hd : dispatchRotate env cred (rotatingState cred st) = r at h hc
    by_cases h2 : r.1.success = true
    · simp only [h2, if_true] at h hc
      by_cases h3 : env.commitOk = true
      · simp only [h3, Bool.not_true, Bool.false_eq_true, if_false] at h hc
        rcases mem_updateCred hc hid with ⟨c0, _, _, hceq⟩
        subst hceq
        exact ⟨rfl, rfl, rfl⟩
      · rw [Bool.not_eq_true] at h3
        simp [h3, failOut] at h
    · rw [Bool.not_eq_true] at h2
      simp only [h2, Bool.false_eq_true, if_false] at h hc
      by_cases h3 : env.setActiveOk = true
      · simp only [h3, Bool.not_true, Bool.false_eq_true, if_false] at h hc
        simp only [h2] at h
        cases h
      · rw [Bool.not_eq_true] at h3
        simp [h3, failOut] at h
  · rw [Bool.not_eq_true] at h1
    simp [h1, failOut] at h

theorem internal_failure_status (env : Env) (cred : Credential) (st : St) (c : Credential)
    (h : (rotateCredentialInternal env cred st).1.success = false)
    (h1 : env.setRotatingOk = true) (h2a : env.setActiveOk = true) (h3 : env.commitOk = true)
    (hc : c ∈ (rotateCredentialInternal env cred st).2.creds)
    (hid : c.id = cred.id) :
    c.status = "active" := by
  unfold rotateCredentialInternal at h hc
  simp only [h1, Bool.not_true, Bool.false_eq_true, if_false] at h hc
  generalize hd : dispatchRotate env cred (rotatingState cred st) = r at h hc
  by_cases h2 : r.1.success = true
  · exfalso
    rw [if_pos h2] at h
    rw [if_neg (by simp [h3] : ¬((!env.commitOk) = true))] at h
    rw [h2] at h
    exact Bool.noConfusion h
  · rw [Bool.not_eq_true] at h2
    rw [if_neg (by simp [h2] : ¬(r.1.success = true))] at hc
    rw [if_neg (by simp [h2a] : ¬((!env.setActiveOk) = true))] at hc
    rcases mem_updateCred hc hid with ⟨c0, _, _, hceq⟩
    subst hceq
    rfl

theorem internal_audit_one (env : Env) (cred : Credential) (st : St)
    (h1 : env.setRotatingOk = true) (h2 : env.setActiveOk = true) (h3 : env.commitOk = true) :
    ∃ rec : AuditRec,
      (rotateCredentialInternal env cred st).2.audit = st.audit ++ [rec] ∧
      rec.action = (if (rotateCredentialInternal env cred st).1.success = true then "rotation"
        else "rotation_failed") := by
  unfold rotateCredentialInternal
  simp only [h1, Bool.not_true, Bool.false_eq_true, if_false]
  generalize hd : dispatchRotate env cred (rotatingState cred st) = r
  have haud : r.2.audit = st.audit := by
    rw [← hd]
    exact dispatchRotate_audit env cred (rotatingState cred st)
  by_cases h4 : r.1.success = true
  · simp only [h4, if_true, h3, Bool.not_true, Bool.false_eq_true, if_false]
    exact ⟨⟨"rotation", "Credential rotated: " ++ cred.name, cred.id, "success", none⟩,
      by simp [haud], by simp⟩
  · rw [Bool.not_eq_true] at h4
    simp only [h4, Bool.false_eq_true, if_false, h2, Bool.not_true]
    exact ⟨⟨"rotation_failed", "Rotation failed: " ++ cred.name, cred.id, "failed", r.1.error⟩,
      by simp [haud], by simp⟩

theorem processDue_audit_len (envs : Nat → Env) (l : List Credential) :
    ∀ (i : Nat) (st : St),
    (∀ j, (envs j).setRotatingOk = true ∧ (envs j).setActiveOk = true ∧
      (envs j).commitOk = true) →
    (processDue envs i st l).audit.length = st.audit.length + 2 * l.length := by
  induction l with
  | nil =>
    intro i st _
    simp [processDue]
  | cons c rest ih =>
    intro i st hflags
    unfold processDue
    dsimp only []
    rw [ih (i + 1) _ hflags]
    rcases internal_audit_one (envs i) c st (hflags i).1 (hflags i).2.1 (hflags i).2.2 with
      ⟨rec, hrec, _⟩
    simp [hrec]
    ring

/-! ### Claim theorems -/

/-- C4 counterexample: the due filter is only
`expiresIn < 30 OR status = expiring`; a credential whose status is
`rotating` but whose `expiresIn` is below the threshold IS selected by
`getCredentialsToRotate`, contradicting the claim that due-selection never
includes a credential with status `rotating`. -/
theorem C4_counterexample :
    getCredentialsToRotate [{ cred0 with status := "rotating" }] =
      [{ cred0 with status := "rotating" }] ∧
    ({ cred0 with status := "rotating" } : Credential).status = "rotating" :=
  ⟨rfl, rfl⟩

/-- C4 as amended: the due-selection of rotate-all-due returns exactly the
credentials with `expiresIn < 30` or status `expiring` (so every credential
with `expiresIn >= 30` and status not `expiring` is excluded), with no
additional exclusion of status `rotating`. -/
theorem C4_amended_thm (creds : List Credential) (c : Credential) :
    c ∈ getCredentialsToRotate creds ↔
      c ∈ creds ∧ (c.expiresIn < 30 ∨ c.status = "expiring") := by
  simp [getCredentialsToRotate, isDue, List.mem_filter, Bool.or_eq_true,
    decide_eq_true_eq]

/-- Witness for C4: `cred0` (expiresIn 5) is selected. -/
theorem C4_amended_witness : cred0 ∈ getCredentialsToRotate [cred0] :=
  (C4_amended_thm [cred0] cred0).mpr ⟨by simp, Or.inl (by decide)⟩

/-- C3 counterexample: a failing rotation of a credential whose pre-attempt
status is `expiring` leaves status `active`, not the pre-attempt value
(the failure path always writes `active`). -/
theorem C3_counterexample :
    (rotateCredentialInternal envUpdFail credExpiring stExpiring).1.success = false ∧
    credExpiring.status = "expiring" ∧
    ((rotateCredentialInternal envUpdFail credExpiring stExpiring).2.creds.map
      Credential.status) = ["active"] :=
  ⟨rfl, rfl, rfl⟩

/-- C3 as amended: after a failed rotation attempt in which the attempt's
inventory writes themselves succeed, the credential's status is set to
`active` (regardless of its pre-attempt value), and in particular is not
left as `rotating`. -/
theorem C3_amended_thm (env : Env) (cred : Credential) (st : St) (c : Credential)
    (h : (rotateCredentialInternal env cred st).1.success = false)
    (h1 : env.setRotatingOk = true) (h2 : env.setActiveOk = true) (h3 : env.commitOk = true)
    (hc : c ∈ (rotateCredentialInternal env cred st).2.creds)
    (hid : c.id = cred.id) :
    c.status = "active" ∧ c.status ≠ "rotating" := by
  have hs := internal_failure_status env cred st c h h1 h2 h3 hc hid
  refine ⟨hs, ?_⟩
  rw [hs]
  decide

/-- Witness for C3 as amended: the failing `envUpdFail` run on the expiring
credential ends with the row `active`. -/
theorem C3_amended_witness : cred0.status = "active" ∧ cred0.status ≠ "rotating" :=
  C3_amended_thm envUpdFail credExpiring stExpiring cred0 rfl rfl rfl rfl (by decide) rfl

/-- C8: for every rotation attempt that succeeds, the committed inventory
row (the row with the credential's id) has `lastRotated` equal to the
operation time, `expiresIn` reset to 90, and status `active`
(`updateCredentialRotation`). -/
theorem C8_theorem (env : Env) (cred : Credential) (st : St) (c : Credential)
    (h : (rotateCredentialInternal env cred st).1.success = true)
    (hc : c ∈ (rotateCredentialInternal env cred st).2.creds)
    (hid : c.id = cred.id) :
    c.lastRotated = env.now ∧ c.expiresIn = 90 ∧ c.status = "active" :=
  internal_success_fields env cred st c h hc hid

/-- Witness for C8: the successful `envOK` run on `cred0` commits
`lastRotated = "t1"`, `expiresIn = 90`, status `active`. -/
theorem C8_witness :
    c8res.lastRotated = envOK.now ∧ c8res.expiresIn = 90 ∧ c8res.status = "active" :=
  C8_theorem envOK cred0 st0 c8res rfl (by decide) rfl

/-- C1 counterexample: a successful database rotation writes the raw new
password (`pw0`, also the plaintext stored in the Secret Value Store) into
the credential inventory record's metadata via `updateCredentialInStorage`,
contradicting the claim that no operation writes the raw value into the
inventory record. -/
theorem C1_counterexample :
    (rotateDatabaseCredential envOK cred0 st0).1.success = true ∧
    ((rotateDatabaseCredential envOK cred0 st0).2.creds.map
      (fun c => lookupAssoc c.metadata "password")) = [some pw0] ∧
    lookupAssoc (rotateDatabaseCredential envOK cred0 st0).2.secrets "s1" =
      some (Payload.json [("username", "app"), ("password", pw0)]) :=
  ⟨rfl, rfl, rfl⟩

/-- C1 as amended: on every successful rotation of every credential kind
the raw new secret value is merged into the credential inventory record's
metadata by `updateCredentialInStorage` — field `password` for the
database, SMTP and generic strategies, `token` for the GitHub and
API-token strategies, and `secretAccessKey` for the IAM strategy — in
addition to any write to the Secret Value Store; the RotationOutcome
itself never carries the raw value (on success its error field is empty). -/
theorem C1_amended_thm :
    (∀ (env : Env) (cred : Credential) (st : St) (c : Credential),
      (rotateDatabaseCredential env cred st).1.success = true →
      c ∈ (rotateDatabaseCredential env cred st).2.creds → c.id = cred.id →
      lookupAssoc c.metadata "password" = some (generateSecurePassword env.rand) ∧
      (rotateDatabaseCredential env cred st).1.error = none) ∧
    (∀ (env : Env) (cred : Credential) (st : St) (c : Credential),
      (rotateSMTPCredential env cred st).1.success = true →
      c ∈ (rotateSMTPCredential env cred st).2.creds → c.id = cred.id →
      lookupAssoc c.metadata "password" = some (generateSecurePassword env.rand) ∧
      (rotateSMTPCredential env cred st).1.error = none) ∧
    (∀ (env : Env) (cred : Credential) (st : St) (c : Credential),
      (rotateGenericSecretsManagerCredential env cred st).1.success = true →
      c ∈ (rotateGenericSecretsManagerCredential env cred st).2.creds → c.id = cred.id →
      lookupAssoc c.metadata "password" = some (generateSecurePassword env.rand) ∧
      (rotateGenericSecretsManagerCredential env cred st).1.error = none) ∧
    (∀ (env : Env) (cred : Credential) (st : St) (c : Credential),
      (rotateGitHubCredential env cred st).1.success = true →
      c ∈ (rotateGitHubCredential env cred st).2.creds → c.id = cred.id →
      lookupAssoc c.metadata "token" = some (generateSecureToken env.randBytes) ∧
      (rotateGitHubCredential env cred st).1.error = none) ∧
    (∀ (env : Env) (cred : Credential) (st : St) (c : Credential),
      (rotateAPITokenCredential env cred st).1.success = true →
      c ∈ (rotateAPITokenCredential env cred st).2.creds → c.id = cred.id →
      lookupAssoc c.metadata "token" = some (generateSecureToken env.randBytes) ∧
      (rotateAPITokenCredential env cred st).1.error = none) ∧
    (∀ (env : Env) (cred : Credential) (st : St) (c : Credential),
      (rotateIAMCredential env cred st).1.success = true →
      c ∈ (rotateIAMCredential env cred st).2.creds → c.id = cred.id →
      lookupAssoc c.metadata "secretAccessKey" = some env.newSecretAccessKey ∧
      (rotateIAMCredential env cred st).1.error = none) := by
  refine ⟨?_, ?_, ?_, ?_, ?_, ?_⟩
  · intro env cred st c h hc hid
    rcases db_success_char env cred st h with ⟨hout, hcreds⟩
    constructor
    · rw [hcreds] at hc
      rcases mem_updateCred hc hid with ⟨c0, _, _, hceq⟩
      subst hceq
      show lookupAssoc
        (mergeFields cred.metadata
          [("password", generateSecurePassword env.rand), ("lastRotated", env.now)]) "password" =
        some (generateSecurePassword env.rand)
      rw [show mergeFields cred.metadata
          [("password", generateSecurePassword env.rand), ("lastRotated", env.now)] =
          setAssoc (setAssoc cred.metadata "password" (generateSecurePassword env.rand))
            "lastRotated" env.now from rfl]
      rw [lookupAssoc_setAssoc_ne _ _ _ _ (by decide)]
      exact lookupAssoc_setAssoc_self _ _ _
    · rw [hout]
  · intro env cred st c h hc hid
    rcases smtp_success_char env cred st h with ⟨hout, hcreds⟩
    constructor
    · rw [hcreds] at hc
      rcases mem_updateCred hc hid with ⟨c0, _, _, hceq⟩
      subst hceq
      show lookupAssoc
        (mergeFields cred.metadata
          [("password", generateSecurePassword env.rand), ("lastRotated", env.now)]) "password" =
        some (generateSecurePassword env.rand)
      rw [show mergeFields cred.metadata
          [("password", generateSecurePassword env.rand), ("lastRotated", env.now)] =
          setAssoc (setAssoc cred.metadata "password" (generateSecurePassword env.rand))
            "lastRotated" env.now from rfl]
      rw [lookupAssoc_setAssoc_ne _ _ _ _ (by decide)]
      exact lookupAssoc_setAssoc_self _ _ _
    · rw [hout]
  · intro env cred st c h hc hid
    rcases generic_success_char env cred st h with ⟨hout, hcreds⟩
    constructor
    · rw [hcreds] at hc
      rcases mem_updateCred hc hid with ⟨c0, _, _, hceq⟩
      subst hceq
      show lookupAssoc
        (mergeFields cred.metadata
          [("password", generateSecurePassword env.rand), ("lastRotated", env.now)]) "password" =
        some (generateSecurePassword env.rand)
      rw [show mergeFields cred.metadata
          [("password", generateSecurePassword env.rand), ("lastRotated", env.now)] =
          setAssoc (setAssoc cred.metadata "password" (generateSecurePassword env.rand))
            "lastRotated" env.now from rfl]
      rw [lookupAssoc_setAssoc_ne _ _ _ _ (by decide)]
      exact lookupAssoc_setAssoc_self _ _ _
    · rw [hout]
  · intro env cred st c h hc hid
    rcases github_success_char env cred st h with ⟨hout, hcreds⟩
    constructor
    · rw [hcreds] at hc
      rcases mem_updateCred hc hid with ⟨c0, _, _, hceq⟩
      subst hceq
      show lookupAssoc
        (mergeFields cred.metadata
          [("token", generateSecureToken env.randBytes), ("lastRotated", env.now)]) "token" =
        some (generateSecureToken env.randBytes)
      rw [show mergeFields cred.metadata
          [("token", generateSecureToken env.randBytes), ("lastRotated", env.now)] =
          setAssoc (setAssoc cred.metadata "token" (generateSecureToken env.randBytes))
            "lastRotated" env.now from rfl]
      rw [lookupAssoc_setAssoc_ne _ _ _ _ (by decide)]
      exact lookupAssoc_setAssoc_self _ _ _
    · rw [hout]
  · intro env cred st c h hc hid
    rcases api_success_char env cred st h with ⟨hout, hcreds⟩
    constructor
    · rw [hcreds] at hc
      rcases mem_updateCred hc hid with ⟨c0, _, _, hceq⟩
      subst hceq
      show lookupAssoc
        (mergeFields cred.metadata
          [("token", generateSecureToken env.randBytes), ("lastRotated", env.now)]) "token" =
        some (generateSecureToken env.randBytes)
      rw [show mergeFields cred.metadata
          [("token", generateSecureToken env.randBytes), ("lastRotated", env.now)] =
          setAssoc (setAssoc cred.metadata "token" (generateSecureToken env.randBytes))
            "lastRotated" env.now from rfl]
      rw [lookupAssoc_setAssoc_ne _ _ _ _ (by decide)]
      exact lookupAssoc_setAssoc_self _ _ _
    · rw [hout]
  · intro env cred st c h hc hid
    rcases iam_success_char env cred st h with ⟨hout, hcreds⟩
    constructor
    · rw [hcreds] at hc
      rcases mem_updateCred hc hid with ⟨c0, _, _, hceq⟩
      subst hceq
      show lookupAssoc
        (mergeFields cred.metadata
          [("accessKeyId", env.newAccessKeyId), ("secretAccessKey", env.newSecretAccessKey),
            ("lastRotated", env.now)]) "secretAccessKey" =
        some env.newSecretAccessKey
      rw [show mergeFields cred.metadata
          [("accessKeyId", env.newAccessKeyId), ("secretAccessKey", env.newSecretAccessKey),
            ("lastRotated", env.now)] =
          setAssoc (setAssoc (setAssoc cred.metadata "accessKeyId" env.newAccessKeyId)
            "secretAccessKey" env.newSecretAccessKey) "lastRotated" env.now from rfl]
      rw [lookupAssoc_setAssoc_ne _ _ _ _ (by decide)]
      exact lookupAssoc_setAssoc_self _ _ _
    · rw [hout]

/-- Witness for C1 as amended: the concrete `envOK` runs of the database,
GitHub-token and IAM strategies on `cred0` leave the raw password, token
and secret access key respectively in the inventory metadata, with empty
outcome errors. -/
theorem C1_amended_witness :
    (lookupAssoc c1res.metadata "password" = some (generateSecurePassword envOK.rand) ∧
      (rotateDatabaseCredential envOK cred0 st0).1.error = none) ∧
    (lookupAssoc c1resGh.metadata "token" = some (generateSecureToken envOK.randBytes) ∧
      (rotateGitHubCredential envOK cred0 st0).1.error = none) ∧
    (lookupAssoc c1resIam.metadata "secretAccessKey" = some envOK.newSecretAccessKey ∧
      (rotateIAMCredential envOK cred0 st0).1.error = none) :=
  ⟨C1_amended_thm.1 envOK cred0 st0 c1res rfl (by decide) rfl,
   C1_amended_thm.2.2.2.1 envOK cred0 st0 c1resGh rfl (by decide) rfl,
   C1_amended_thm.2.2.2.2.2 envOK cred0 st0 c1resIam rfl (by decide) rfl⟩

/-- C2 counterexample: a single successful attempt through rotate-all-due
appends TWO audit records (the `rotation` record inside
`rotateCredentialInternal`, plus the orchestrator loop's own
`logActivity("rotation", ...)`), contradicting "exactly one audit record
per attempt". -/
theorem C2_counterexample :
    ((rotationAll (fun _ => envOK) st0).audit.map AuditRec.action) =
      ["rotation", "rotation"] :=
  rfl

/-- C2 as amended: per attempt whose inventory status/commit writes
succeed, rotate-one appends exactly one audit record, with action
`rotation` on success and `rotation_failed` on failure; rotate-all-due
appends one additional orchestrator-level record with action `rotation`
per attempt regardless of outcome, for a total of exactly two records per
attempt. -/
theorem C2_amended_thm (env : Env) (cid : String) (st : St) (envs : Nat → Env)
    (cred : Credential)
    (h1 : env.setRotatingOk = true) (h2 : env.setActiveOk = true) (h3 : env.commitOk = true)
    (hb : ∀ j, (envs j).setRotatingOk = true ∧ (envs j).setActiveOk = true ∧
      (envs j).commitOk = true)
    (hfind : st.creds.find? (fun c => decide (c.id = cid)) = some cred) :
    (∃ rec : AuditRec,
      (rotateOne env cid st).2.audit = st.audit ++ [rec] ∧
      rec.action = (if (rotateOne env cid st).1.success = true then "rotation"
        else "rotation_failed")) ∧
    (rotationAll envs st).audit.length =
      st.audit.length + 2 * (getCredentialsToRotate st.creds).length := by
  constructor
  · unfold rotateOne
    rw [hfind]
    exact internal_audit_one env cred st h1 h2 h3
  · unfold rotationAll
    exact processDue_audit_len envs (getCredentialsToRotate st.creds) 0 st hb

/-- Witness for C2 as amended: the `envOK` run on `st0`. -/
theorem C2_amended_witness :
    (∃ rec : AuditRec,
      (rotateOne envOK "c1" st0).2.audit = st0.audit ++ [rec] ∧
      rec.action = (if (rotateOne envOK "c1" st0).1.success = true then "rotation"
        else "rotation_failed")) ∧
    (rotationAll (fun _ => envOK) st0).audit.length =
      st0.audit.length + 2 * (getCredentialsToRotate st0.creds).length :=
  C2_amended_thm envOK "c1" st0 (fun _ => envOK) cred0 rfl rfl rfl
    (fun _ => ⟨rfl, rfl, rfl⟩) rfl

/-- C5 counterexample: after a first successful rotate-one on `c1`
(resetting `expiresIn` to 90 and status to `active`), a second immediate
rotate-one call performs a FULL second rotation: it succeeds, writes a new
secret value (`pw1`, different from the first `pw0`), and appends a second
audit record — `rotateCredential` never consults due-selection. -/
theorem C5_counterexample :
    (rotateOne envOK2 "c1" stAfter1).1.success = true ∧
    lookupAssoc (rotateOne envOK2 "c1" stAfter1).2.secrets "s1" =
      some (Payload.json [("username", "app"), ("password", pw1)]) ∧
    pw1 ≠ pw0 ∧
    ((rotateOne envOK2 "c1" stAfter1).2.audit.map AuditRec.action) =
      ["rotation", "rotation"] :=
  ⟨rfl, rfl, by decide, rfl⟩

/-- C5 as amended: after a successful rotate-one the credential's committed
row is no longer due (`expiresIn = 90 >= 30` and status `active`), so a
subsequent rotate-all-due pass would skip it; but rotate-one itself rotates
unconditionally, so a second direct rotate-one invocation performs a full
second rotation (see the counterexample). -/
theorem C5_amended_thm (env : Env) (cid : String) (st : St) (cred c : Credential)
    (hfind : st.creds.find? (fun x => decide (x.id = cid)) = some cred)
    (h : (rotateOne env cid st).1.success = true)
    (hc : c ∈ (rotateOne env cid st).2.creds)
    (hid : c.id = cred.id) :
    isDue c = false := by
  unfold rotateOne at h hc
  rw [hfind] at h hc
  rcases internal_success_fields env cred st c h hc hid with ⟨_, he, hs⟩
  unfold isDue
  rw [he, hs]
  decide

/-- Witness for C5 as amended: the committed row after the first rotation
is not due. -/
theorem C5_amended_witness : isDue c8res = false :=
  C5_amended_thm envOK "c1" st0 cred0 c8res rfl rfl (by decide) rfl

/-- C6 counterexample: the name `mailgun-creds` contains none of the
claim's tokens (`database`, `db`, `rds`, `smtp`, `email`), and its payload
is structured with `password` + `username`, so the claim requires
database-password; but the code also matches the token `mail` and
classifies it as SMTP-password. -/
theorem C6_counterexample :
    detectSecretType "mailgun-creds" mailPayload = "SMTP_PASSWORD" ∧
    detectSecretTypeClaim "mailgun-creds" mailPayload = "RDS_PASSWORD" :=
  ⟨rfl, rfl⟩

/-- C6 as amended: the classifier follows the claim's ordered first-match
rules with the email-token rule extended to `smtp`, `email`, or `mail`
(`detectSecretTypeClaimAmended` is the claim's rule list with that one
change); in particular any name containing `mail` with no database token
classifies as SMTP-password regardless of payload. -/
theorem C6_amended_thm (name : String) (p : Option Payload) :
    detectSecretType name p = detectSecretTypeClaimAmended name p ∧
    (hasDbToken name = false → strContains (lowerString name) "mail" = true →
      detectSecretType name p = "SMTP_PASSWORD") := by
  constructor
  · rfl
  · intro hdb hm
    unfold detectSecretType hasMailToken
    simp [hdb, hm]

/-- Witness for C6 as amended: `mailgun-creds` classifies as SMTP. -/
theorem C6_amended_witness :
    detectSecretType "mailgun-creds" mailPayload = "SMTP_PASSWORD" :=
  (C6_amended_thm "mailgun-creds" mailPayload).2 rfl rfl

/-- C7: the verification protocol reads the secret back after the fixed
wait; a first-attempt read that matches verifies; reads may fail
transiently on the first two of the 3 total attempts and verification still
succeeds if the third matches; if all 3 attempts fail, verification fails;
and in that case the database strategy's outcome is `success:false` with
the verification error even though the update call itself succeeded
(`updateSecretOk = true`). -/
theorem C7_theorem :
    (∀ (reads : Nat → Option Payload) (b : Bool) (f np : String) (p : Payload),
      reads 0 = some p → comparePayload p b f np = true →
      verifyWritten reads b f np = true) ∧
    (∀ (reads : Nat → Option Payload) (b : Bool) (f np : String) (p : Payload),
      reads 0 = none → reads 1 = none → reads 2 = some p →
      comparePayload p b f np = true → verifyWritten reads b f np = true) ∧
    (∀ (reads : Nat → Option Payload) (b : Bool) (f np : String),
      reads 0 = none → reads 1 = none → reads 2 = none →
      verifyWritten reads b f np = false) ∧
    (∀ (env : Env) (cred : Credential) (st : St),
      env.getSecretOk = true → env.updateSecretOk = true →
      ¬(getSecretId cred = "") →
      verifyWritten env.verifyReads
        (isPlainPayload ((lookupAssoc st.secrets (getSecretId cred)).getD (Payload.plain "")))
        "password" (generateSecurePassword env.rand) = false →
      (rotateDatabaseCredential env cred st).1 =
        ⟨false, some "Secret update verification failed"⟩) := by
  refine ⟨?_, ?_, ?_, ?_⟩
  · intro reads b f np p h0 hcmp
    simp [verifyWritten, readWithRetry, h0, hcmp]
  · intro reads b f np p h0 h1 h2 hcmp
    simp [verifyWritten, readWithRetry, h0, h1, h2, hcmp]
  · intro reads b f np h0 h1 h2
    simp [verifyWritten, readWithRetry, h0, h1, h2]
  · intro env cred st hg hu hne hv
    unfold rotateDatabaseCredential
    rw [if_neg hne]
    rw [if_neg (show ¬((!env.getSecretOk) = true) by simp [hg])]
    rw [if_neg (show ¬((!env.updateSecretOk) = true) by simp [hu])]
    rw [if_pos (show (!(verifyWritten env.verifyReads
        (isPlainPayload ((lookupAssoc st.secrets (getSecretId cred)).getD (Payload.plain "")))
        "password" (generateSecurePassword env.rand))) = true by simp [hv])]
    rfl

/-- Witness for C7: first-attempt match verifies; three failures do not,
and the `envVerFail` database rotation reports the verification failure. -/
theorem C7_witness :
    verifyWritten (fun _ => some (Payload.plain "x")) true "password" "x" = true ∧
    verifyWritten (fun _ => none) true "password" "x" = false ∧
    (rotateDatabaseCredential envVerFail cred0 st0).1 =
      ⟨false, some "Secret update verification failed"⟩ :=
  ⟨C7_theorem.1 (fun _ => some (Payload.plain "x")) true "password" "x"
      (Payload.plain "x") rfl rfl,
   C7_theorem.2.2.1 (fun _ => none) true "password" "x" rfl rfl rfl,
   C7_theorem.2.2.2 envVerFail cred0 st0 rfl rfl (by decide) rfl⟩

/-- C9: generated passwords have exactly 32 characters; a structured
database write replaces only the `password` field (all other fields of the
payload are unchanged, and the field is created if absent); the SMTP
strategy targets `smtp_password` if present, else `password` if present,
else creates `smtp_password`, changing only that field; and at the strategy
level, when the current payload is structured the database / SMTP
strategies write back exactly the payload with only that field updated. -/
theorem C9_theorem :
    (∀ rand : Nat → Nat, (generateSecurePassword rand).length = 32) ∧
    (∀ (fs : List (String × String)) (np k : String), k ≠ "password" →
      lookupAssoc (setAssoc fs "password" np) k = lookupAssoc fs k) ∧
    (∀ (fs : List (String × String)) (np : String),
      lookupAssoc (setAssoc fs "password" np) "password" = some np) ∧
    (∀ (fs : List (String × String)) (np k : String),
      k ≠ smtpTargetField (Payload.json fs) →
      lookupAssoc (setAssoc fs (smtpTargetField (Payload.json fs)) np) k = lookupAssoc fs k) ∧
    (∀ (fs : List (String × String)) (np : String),
      lookupAssoc (setAssoc fs (smtpTargetField (Payload.json fs)) np)
        (smtpTargetField (Payload.json fs)) = some np) ∧
    (∀ fs : List (String × String),
      (hasKey fs "smtp_password" = true →
        smtpTargetField (Payload.json fs) = "smtp_password") ∧
      (hasKey fs "smtp_password" = false → hasKey fs "password" = true →
        smtpTargetField (Payload.json fs) = "password") ∧
      (hasKey fs "smtp_password" = false → hasKey fs "password" = false →
        smtpTargetField (Payload.json fs) = "smtp_password")) ∧
    (∀ (env : Env) (cred : Credential) (st : St) (fs : List (String × String)),
      env.getSecretOk = true → env.updateSecretOk = true →
      ¬(getSecretId cred = "") →
      lookupAssoc st.secrets (getSecretId cred) = some (Payload.json fs) →
      lookupAssoc (rotateDatabaseCredential env cred st).2.secrets (getSecretId cred) =
        some (Payload.json (setAssoc fs "password" (generateSecurePassword env.rand)))) ∧
    (∀ (env : Env) (cred : Credential) (st : St) (fs : List (String × String)),
      env.getSecretOk = true → env.updateSecretOk = true →
      ¬(getSecretId cred = "") →
      lookupAssoc st.secrets (getSecretId cred) = some (Payload.json fs) →
      lookupAssoc (rotateSMTPCredential env cred st).2.secrets (getSecretId cred) =
        some (Payload.json
          (setAssoc fs (smtpTargetField (Payload.json fs)) (generateSecurePassword env.rand)))) := by
  refine ⟨?_, ?_, ?_, ?_, ?_, ?_, ?_, ?_⟩
  · intro rand
    simp [generateSecurePassword, String.length]
  · intro fs np k hk
    exact lookupAssoc_setAssoc_ne fs "password" k np hk
  · intro fs np
    exact lookupAssoc_setAssoc_self fs "password" np
  · intro fs np k hk
    exact lookupAssoc_setAssoc_ne fs _ k np hk
  · intro fs np
    exact lookupAssoc_setAssoc_self fs _ np
  · intro fs
    refine ⟨?_, ?_, ?_⟩
    · intro h
      simp [smtpTargetField, h]
    · intro h1 h2
      simp [smtpTargetField, h1, h2]
    · intro h1 h2
      simp [smtpTargetField, h1, h2]
  · intro env cred st fs hg hu hne hcur
    unfold rotateDatabaseCredential updateCredentialInStorage
    rw [if_neg hne]
    rw [if_neg (show ¬((!env.getSecretOk) = true) by simp [hg])]
    rw [if_neg (show ¬((!env.updateSecretOk) = true) by simp [hu])]
    rw [hcur]
    dsimp only [Option.getD, dbNewPayload]
    by_cases hso : env.storageOk = true
    · simp only [if_pos hso]
      repeat' split
      all_goals exact lookupAssoc_setAssoc_self _ _ _
    · simp only [if_neg hso]
      repeat' split
      all_goals exact lookupAssoc_setAssoc_self _ _ _
  · intro env cred st fs hg hu hne hcur
    unfold rotateSMTPCredential updateCredentialInStorage
    rw [if_neg hne]
    rw [if_neg (show ¬((!env.getSecretOk) = true) by simp [hg])]
    rw [if_neg (show ¬((!env.updateSecretOk) = true) by simp [hu])]
    rw [hcur]
    dsimp only [Option.getD, smtpNewPayload]
    by_cases hso : env.storageOk = true
    · simp only [if_pos hso]
      repeat' split
      all_goals exact lookupAssoc_setAssoc_self _ _ _
    · simp only [if_neg hso]
      repeat' split
      all_goals exact lookupAssoc_setAssoc_self _ _ _

/-- Witness for C9: the `envOK` database rotation on `st0`'s structured
payload updates only the password field, and the password has 32 chars. -/
theorem C9_witness :
    (generateSecurePassword envOK.rand).length = 32 ∧
    lookupAssoc (rotateDatabaseCredential envOK cred0 st0).2.secrets (getSecretId cred0) =
      some (Payload.json
        (setAssoc [("username", "app"), ("password", "old123")] "password"
          (generateSecurePassword envOK.rand))) ∧
    lookupAssoc
      (setAssoc [("username", "app"), ("password", "old123")] "password"
        (generateSecurePassword envOK.rand)) "username" =
      some "app" :=
  ⟨C9_theorem.1 envOK.rand,
   C9_theorem.2.2.2.2.2.2.1 envOK cred0 st0 [("username", "app"), ("password", "old123")]
     rfl rfl (by decide) rfl,
   C9_theorem.2.1 [("username", "app"), ("password", "old123")]
     (generateSecurePassword envOK.rand) "username" (by decide)⟩

/-- C10: in IAM access-key rotation, whenever the old-key invalidation call
happens (event `iam_delete_access_key` in the trace), the new key was
already durably stored (event `update_credential_in_storage`) strictly
earlier in the trace; so in no execution is the old key deleted before the
new key is stored. -/
theorem C10_theorem (env : Env) (cred : Credential) (st : St)
    (h0 : st.events = [])
    (hdel : "iam_delete_access_key" ∈ (rotateIAMCredential env cred st).2.events) :
    ∃ i j : Nat, i < j ∧
      (rotateIAMCredential env cred st).2.events[i]? = some "update_credential_in_storage" ∧
      (rotateIAMCredential env cred st).2.events[j]? = some "iam_delete_access_key" := by
  unfold rotateIAMCredential updateCredentialInStorage at hdel ⊢
  cases hc : env.iamCreateOk <;> cases hs : env.storageOk <;> cases hd : env.iamDeleteOk <;>
    simp [hc, hs, hd, h0] at hdel ⊢
  exact ⟨1, 2, by omega, rfl, rfl⟩

/-- Witness for C10: the all-success IAM rotation stores the new key
(trace index 1) before deleting the old one (index 2). -/
theorem C10_witness :
    ∃ i j : Nat, i < j ∧
      (rotateIAMCredential envOK cred0 st0).2.events[i]? = some "update_credential_in_storage" ∧
      (rotateIAMCredential envOK cred0 st0).2.events[j]? = some "iam_delete_access_key" :=
  C10_theorem envOK cred0 st0 rfl (by decide)

end VaultPilot
